import Mathlib

/-!
Verification of the table-extraction and dashboard-rendering pipeline of
`src/utils/pdfDashboard.js` (functions `extractTable`, `generateHTML`,
`saveHTMLToFile`, `pdfTableToHTMLDashboard`).

Modelling conventions:
* A JavaScript string is a `List Char` (named `Str` below); text supplied by
  the PDF extractor is one `Str` containing newline characters.
* The regex `/\t|\s{2,}/` is embedded by hand: `hasTabularShape` decides
  whether it matches somewhere in a line, and `splitCells` reproduces
  `String.prototype.split` on it (leftmost match, alternatives tried in
  order, `\s{2,}` greedy).  The `\s` class is modelled by its ASCII members,
  which covers every input considered here.
* JavaScript numbers are modelled exactly: `Number(string)` conversion is
  embedded as a parser into rationals (plus signed infinities) rather than
  IEEE doubles; none of the properties below depends on double rounding.
* The filesystem used by `saveHTMLToFile` is an explicit association list
  from paths to file contents, threaded through the pipeline.
-/

namespace PdfDashboard

/-- JavaScript strings are modelled as lists of characters. -/
abbrev Str := List Char

/-- Membership in the regex character class `\s`, restricted to its ASCII
members (space, tab, line feed, vertical tab, form feed, carriage return). -/
def isJsSpace (c : Char) : Bool :=
  c == ' ' || c == '\t' || c == '\n' || c == '\x0b' || c == '\x0c' || c == '\r'

/-- `String.prototype.trim`: remove leading and trailing whitespace. -/
def jsTrim (s : Str) : Str :=
  ((s.dropWhile isJsSpace).reverse.dropWhile isJsSpace).reverse

/-- Does `/\t|\s{2,}/` match somewhere in the line?  True exactly when the
line contains a tab or two adjacent whitespace characters. -/
def hasTabularShape : Str → Bool
  | [] => false
  | [c] => c == '\t'
  | c :: d :: rest =>
    c == '\t' || (isJsSpace c && isJsSpace d) || hasTabularShape (d :: rest)

/-- `text.split('\n')`. -/
def splitLines : Str → List Str
  | [] => [[]]
  | c :: rest =>
    if c = '\n' then [] :: splitLines rest
    else
      match splitLines rest with
      | [] => [[c]]
      | l :: ls => (c :: l) :: ls

/-- Worker for `splitCells`: scan left to right keeping the characters of the
current token (reversed) in `acc`.  At each position the alternative `\t` is
tried first; otherwise `\s{2,}` matches when the current and next characters
are both whitespace, and then greedily consumes the whole whitespace run —
`skip` is true while the remainder of such a run is being consumed (with
`acc = []`). -/
def splitCellsAux (skip : Bool) (acc : Str) : Str → List Str
  | [] => [acc.reverse]
  | [c] =>
    if skip && isJsSpace c then [([] : Str)]
    else if c = '\t' then acc.reverse :: [([] : Str)]
    else [(c :: acc).reverse]
  | c :: d :: rest2 =>
    if skip && isJsSpace c then splitCellsAux true [] (d :: rest2)
    else if c = '\t' then acc.reverse :: splitCellsAux false [] (d :: rest2)
    else if isJsSpace c && isJsSpace d then
      acc.reverse :: splitCellsAux true [] rest2
    else
      splitCellsAux false (c :: acc) (d :: rest2)

/-- `line.split(/\t|\s{2,}/)`. -/
def splitCells (s : Str) : List Str := splitCellsAux false [] s

/-- One tokenized candidate line: `line.trim().split(/\t|\s{2,}/)`. -/
def tokenizeLine (l : Str) : List Str := splitCells (jsTrim l)

/-- The line filter of `extractTable`:
`line.trim().length > 0 && line.match(/\t|\s{2,}/)`.
The match is tested on the untrimmed line. -/
def candPred (l : Str) : Bool := !(jsTrim l).isEmpty && hasTabularShape l

/-- The candidate lines of a text: `text.split('\n').filter(candPred)`. -/
def candidateLines (text : Str) : List Str := (splitLines text).filter candPred

/-- A JavaScript number value, modelled exactly: the literal's value as a
rational, or a signed infinity.  (The engine stores an IEEE double; the
rounding from the exact value to the double never matters for the
properties proved here.) -/
inductive JSNum where
  | finite (q : ℚ)
  | posInf
  | negInf
deriving DecidableEq, Repr

/-- Decimal digit test. -/
def isDig (c : Char) : Bool := '0' ≤ c && c ≤ '9'

/-- Value of a decimal digit character. -/
def digVal (c : Char) : ℕ := c.toNat - '0'.toNat

/-- Value of a digit string in the given base. -/
def radixVal (base : ℕ) (dv : Char → ℕ) (l : Str) : ℕ :=
  l.foldl (fun a c => base * a + dv c) 0

/-- Parse a non-empty all-digit string in a given base. -/
def parseRadix (base : ℕ) (digOk : Char → Bool) (dv : Char → ℕ) (l : Str) :
    Option ℕ :=
  if !l.isEmpty && l.all digOk then some (radixVal base dv l) else none

/-- Hex digit test. -/
def isHexDig (c : Char) : Bool :=
  isDig c || ('a' ≤ c && c ≤ 'f') || ('A' ≤ c && c ≤ 'F')

/-- Value of a hex digit character. -/
def hexVal (c : Char) : ℕ :=
  if isDig c then digVal c
  else if 'a' ≤ c && c ≤ 'f' then c.toNat - 'a'.toNat + 10
  else c.toNat - 'A'.toNat + 10

/-- Octal digit test. -/
def isOctDig (c : Char) : Bool := '0' ≤ c && c ≤ '7'

/-- Binary digit test. -/
def isBinDig (c : Char) : Bool := c == '0' || c == '1'

/-- Split a string at its first `e`/`E`, the exponent marker of a decimal
literal; returns the mantissa part and (when a marker is present) the
exponent part. -/
def splitExpMark : Str → Str × Option Str
  | [] => ([], none)
  | c :: rest =>
    if c = 'e' ∨ c = 'E' then ([], some rest)
    else
      match splitExpMark rest with
      | (m, e) => (c :: m, e)

/-- Parse the mantissa of an unsigned decimal literal:
`Digits`, `Digits '.' Digits?`, or `'.' Digits` (grammar
`StrUnsignedDecimalLiteral` without the exponent part).  The result is the
pair `(n, k)` representing the value `n / 10 ^ k`. -/
def parseMantissa (s : Str) : Option (ℕ × ℕ) :=
  match s.span isDig with
  | (ip, rest) =>
    match rest with
    | [] => if ip.isEmpty then none else some (radixVal 10 digVal ip, 0)
    | c :: fp =>
      if c = '.' ∧ fp.all isDig ∧ (¬ip.isEmpty ∨ ¬fp.isEmpty) then
        some (radixVal 10 digVal (ip ++ fp), fp.length)
      else none

/-- The rational `(n / 10 ^ k) * 10 ^ ex`, built with `mkRat` so that it
evaluates by kernel reduction. -/
def decValue (n k : ℕ) (ex : ℤ) : ℚ :=
  if (k : ℤ) ≤ ex then ((n * 10 ^ (ex - (k : ℤ)).toNat : ℕ) : ℚ)
  else mkRat n (10 ^ ((k : ℤ) - ex).toNat)

/-- Parse an optionally signed non-empty digit string (an exponent). -/
def parseSignedDigits (s : Str) : Option ℤ :=
  match s with
  | '+' :: r => (parseRadix 10 isDig digVal r).map fun n => (n : ℤ)
  | '-' :: r => (parseRadix 10 isDig digVal r).map fun n => -(n : ℤ)
  | r => (parseRadix 10 isDig digVal r).map fun n => (n : ℤ)

/-- Parse an unsigned decimal literal with optional exponent part. -/
def parseUnsignedDecimal (s : Str) : Option ℚ :=
  match splitExpMark s with
  | (m, none) => (parseMantissa m).map fun p => decValue p.1 p.2 0
  | (m, some es) =>
    match parseMantissa m, parseSignedDigits es with
    | some p, some ex => some (decValue p.1 p.2 ex)
    | _, _ => none

/-- Parse `[+-]? (Infinity | UnsignedDecimal)` — the signed-decimal branch of
`StringToNumber`. -/
def parseSignedDecimal (s : Str) : Option JSNum :=
  match s with
  | '+' :: r =>
    if r = ('I' :: 'n' :: 'f' :: 'i' :: 'n' :: 'i' :: 't' :: 'y' :: [])
    then some .posInf
    else (parseUnsignedDecimal r).map fun q => .finite q
  | '-' :: r =>
    if r = ('I' :: 'n' :: 'f' :: 'i' :: 'n' :: 'i' :: 't' :: 'y' :: [])
    then some .negInf
    else (parseUnsignedDecimal r).map fun q => .finite (-q)
  | r =>
    if r = ('I' :: 'n' :: 'f' :: 'i' :: 'n' :: 'i' :: 't' :: 'y' :: [])
    then some .posInf
    else (parseUnsignedDecimal r).map fun q => .finite q

/-- `Number(s)` for a string carrying no surrounding whitespace: `none` means
the conversion yields `NaN`.  The empty string converts to `0`; `0x`/`0o`/`0b`
prefixes select unsigned non-decimal integer literals; otherwise the signed
decimal / Infinity grammar applies. -/
def jsStringToNumber (s : Str) : Option JSNum :=
  match s with
  | [] => some (.finite 0)
  | c0 :: c1 :: rest =>
    if c0 = '0' ∧ (c1 = 'x' ∨ c1 = 'X') then
      (parseRadix 16 isHexDig hexVal rest).map fun n => .finite n
    else if c0 = '0' ∧ (c1 = 'o' ∨ c1 = 'O') then
      (parseRadix 8 isOctDig digVal rest).map fun n => .finite n
    else if c0 = '0' ∧ (c1 = 'b' ∨ c1 = 'B') then
      (parseRadix 2 isBinDig digVal rest).map fun n => .finite n
    else parseSignedDecimal (c0 :: c1 :: rest)
  | s => parseSignedDecimal s

/-- A cell of the extracted table: `Number(trimmed)` when the trimmed token is
numeric and non-empty, else the trimmed token itself. -/
inductive Cell where
  | num (n : JSNum)
  | str (s : Str)
deriving DecidableEq, Repr

/-- The cell coercion of `extractTable`:
`!isNaN(trimmed) && trimmed !== '' ? Number(trimmed) : trimmed`. -/
def coerceCell (v : Str) : Cell :=
  match jsStringToNumber (jsTrim v) with
  | some n => if (jsTrim v).isEmpty then .str (jsTrim v) else .num n
  | none => .str (jsTrim v)

/-- The result of `extractTable`: `{ headers, values }`. -/
structure Table where
  headers : List Str
  values : List (List Cell)
deriving DecidableEq, Repr

/-- The error message thrown when no table-like data is found. -/
def noTabularDataMsg : Str :=
  ('N' :: 'o' :: ' ' :: 't' :: 'a' :: 'b' :: 'l' :: 'e' :: '-' :: 'l' ::
   'i' :: 'k' :: 'e' :: ' ' :: 'd' :: 'a' :: 't' :: 'a' :: ' ' :: 'f' ::
   'o' :: 'u' :: 'n' :: 'd' :: [])

/-- Table construction from the candidate lines (the body of `extractTable`
after the length guard): the first tokenized line is the header row; later
tokenized lines are kept only when their token count equals the header count,
and their cells are coerced. -/
def tableOfLines (lines : List Str) : Table :=
  { headers := (lines.map tokenizeLine).headD []
    values :=
      (((lines.map tokenizeLine).tail).filter fun r =>
          r.length == ((lines.map tokenizeLine).headD []).length).map fun r =>
        r.map coerceCell }

/-- `extractTable` of `src/utils/pdfDashboard.js`, on the text recovered from
the PDF: filter candidate lines, fail when fewer than two remain, otherwise
build the table. -/
def extractTable (text : Str) : Except Str Table :=
  if (candidateLines text).length < 2 then .error noTabularDataMsg
  else .ok (tableOfLines (candidateLines text))

/-- Decimal digits of a natural number, most significant first (the first
argument is recursion fuel, always supplied as `n + 1`). -/
def natToDecimalAux : ℕ → ℕ → Str
  | 0, _ => []
  | fuel + 1, n =>
    if n = 0 then [] else natToDecimalAux fuel (n / 10) ++ [Char.ofNat (48 + n % 10)]

/-- Decimal representation of a natural number. -/
def natToDecimal (n : ℕ) : Str :=
  if n = 0 then ['0'] else natToDecimalAux (n + 1) n

/-- Least `k ≤ 1200` with `d ∣ 10 ^ k` (every denominator reachable from a
parsed literal or a double divides such a power; `0` is a fallback). -/
def pow10Exp (d : ℕ) : ℕ :=
  (((List.range 1201).find? fun k => 10 ^ k % d == 0).getD 0)

/-- Decimal string of a rational with terminating decimal expansion —
JavaScript number-to-string for the values arising here.  (The scientific
notation JavaScript switches to beyond `1e21` / below `1e-6` is not modelled;
no property here renders such a value.) -/
def ratToStr (q : ℚ) : Str :=
  let sign : Str := if q < 0 then ['-'] else []
  let a : ℚ := |q|
  let k := pow10Exp a.den
  let n := a.num.natAbs * 10 ^ k / a.den
  let ds := natToDecimal n
  if k = 0 then sign ++ ds
  else
    let ds2 := if ds.length ≤ k then List.replicate (k + 1 - ds.length) '0' ++ ds else ds
    sign ++ ds2.take (ds2.length - k) ++ ['.'] ++ ds2.drop (ds2.length - k)

/-- JavaScript `ToString` on a number value. -/
def jsNumToString : JSNum → Str
  | .posInf => ('I' :: 'n' :: 'f' :: 'i' :: 'n' :: 'i' :: 't' :: 'y' :: [])
  | .negInf => ('-' :: 'I' :: 'n' :: 'f' :: 'i' :: 'n' :: 'i' :: 't' :: 'y' :: [])
  | .finite q => ratToStr q

/-- Stringification of a cell by template-literal interpolation. -/
def cellToStr : Cell → Str
  | .str s => s
  | .num n => jsNumToString n

/-- One data cell: `` `<td>${cell}</td>` ``. -/
def tdCell (c : Cell) : Str := ("<td>").data ++ cellToStr c ++ ("</td>").data

/-- One data row: `` `<tr>${row.map(...).flatten('')}</tr>` ``. -/
def trRow (row : List Cell) : Str :=
  ("<tr>").data ++ (row.map tdCell).flatten ++ ("</tr>").data

/-- One header cell: `` `<th>${header}</th>` ``. -/
def thCell (h : Str) : Str := ("<th>").data ++ h ++ ("</th>").data

/-- The template literal of `generateHTML` up to the interpolated table
content (browser-literal text; `\x7b`/`\x7d` are the CSS braces). -/
def htmlPrefix : Str :=
  ("\n    <html>\n      <head>\n        <title>Dashboard</title>\n        <style>\n          table \x7b border-collapse: collapse; width: 100%; font-family: Arial, sans-serif; \x7d\n          th, td \x7b border: 1px solid #ccc; padding: 8px; text-align: center; \x7d\n          th \x7b background-color: #eee; \x7d\n        </style>\n      </head>\n      <body>\n        <h1>📊 PDF Table Dashboard</h1>\n        <table>").data

/-- The template literal of `generateHTML` after the interpolated table
content. -/
def htmlSuffix : Str := ("</table>\n      </body>\n    </html>\n  ").data

/-- `generateHTML` of `src/utils/pdfDashboard.js`: the fixed document
template around one header row and the joined data rows. -/
def generateHTML (headers : List Str) (values : List (List Cell)) : Str :=
  htmlPrefix ++
    (("<tr>").data ++ (headers.map thCell).flatten ++ ("</tr>").data) ++
    (values.map trRow).flatten ++ htmlSuffix

/-- The storage backend: an association list from paths to file contents. -/
structure Store where
  files : List (Str × Str)
deriving DecidableEq, Repr

/-- The output directory `path.flatten(__dirname, '../dashboards')`, modelled as
a fixed directory name (the `__dirname` prefix is environment data no
property depends on). -/
def dashboardsDir : Str := ("dashboards").data

/-- Write a file, overwriting any previous content at the same path. -/
def writeFile (st : Store) (p c : Str) : Store :=
  ⟨(p, c) :: st.files.filter fun e => !(e.1 == p)⟩

/-- `saveHTMLToFile` of `src/utils/pdfDashboard.js`: ensure the directory
(implicit in this store model), write `filename + ".html"` into it, return
the new store and the output path. -/
def saveHTMLToFile (htmlContent filename : Str) (st : Store) : Store × Str :=
  (writeFile st (dashboardsDir ++ ['/'] ++ filename ++ (".html").data) htmlContent,
   dashboardsDir ++ ['/'] ++ filename ++ (".html").data)

/-- `pdfTableToHTMLDashboard`: extract, render, then save; the store is
threaded explicitly, and a thrown extraction error leaves it untouched. -/
def pdfTableToHTMLDashboard (text baseName : Str) (st : Store) :
    Except Str Str × Store :=
  match extractTable text with
  | .error e => (.error e, st)
  | .ok t =>
    match saveHTMLToFile (generateHTML t.headers t.values) baseName st with
    | (st2, out) => (.ok out, st2)

/-- Does `pat` occur as a prefix of `s`? -/
def startsWithStr : Str → Str → Bool
  | [], _ => true
  | _ :: _, [] => false
  | p :: ps, c :: cs => p == c && startsWithStr ps cs

/-- Does `pat` occur as a contiguous substring of `s`? -/
def containsStr (pat : Str) : Str → Bool
  | [] => startsWithStr pat []
  | c :: cs => startsWithStr pat (c :: cs) || containsStr pat cs

/-- No leading and no trailing whitespace. -/
def noEdgeSpace (s : Str) : Bool :=
  (match s.head? with
   | none => true
   | some c => !isJsSpace c) &&
  (match s.getLast? with
   | none => true
   | some c => !isJsSpace c)

/-- Modelled from the spec: a token that "parses fully as a numeric literal
(integer or decimal, optionally signed)" — an optional sign followed by
`Digits`, `Digits '.' Digits?`, or `'.' Digits`. -/
def specNumericLiteral (s : Str) : Bool :=
  let body : Str :=
    match s with
    | '+' :: r => r
    | '-' :: r => r
    | r => r
  match body.span isDig with
  | (ip, rest) =>
    match rest with
    | [] => !ip.isEmpty
    | c :: fp => c == '.' && fp.all isDig && (!ip.isEmpty || !fp.isEmpty)

/-! ## Supporting lemmas -/

theorem head_dropWhile_false (p : Char → Bool) :
    ∀ (l : Str) (c : Char) (t : Str), l.dropWhile p = c :: t → p c = false := by
  intro l
  induction l with
  | nil => intro c t h; simp [List.dropWhile] at h
  | cons a l ih =>
    intro c t h
    by_cases hp : p a
    · rw [List.dropWhile_cons_of_pos hp] at h
      exact ih c t h
    · rw [List.dropWhile_cons_of_neg hp] at h
      cases h
      simpa using hp

theorem getLast_dropWhile_eq (p : Char → Bool) :
    ∀ l : Str, l.dropWhile p ≠ [] → (l.dropWhile p).getLast? = l.getLast? := by
  intro l
  induction l with
  | nil => simp
  | cons a l ih =>
    intro h
    by_cases hp : p a
    · rw [List.dropWhile_cons_of_pos hp] at h ⊢
      rw [ih h]
      match l, h with
      | b :: l2, _ => rw [List.getLast?_cons_cons]
    · rw [List.dropWhile_cons_of_neg hp]

theorem noEdgeSpace_jsTrim (s : Str) : noEdgeSpace (jsTrim s) = true := by
  unfold noEdgeSpace jsTrim
  rw [List.head?_reverse, List.getLast?_reverse, Bool.and_eq_true]
  refine ⟨?_, ?_⟩
  · cases hw : (s.dropWhile isJsSpace).reverse.dropWhile isJsSpace with
    | nil => simp [hw]
    | cons c t =>
      have hne : (s.dropWhile isJsSpace).reverse.dropWhile isJsSpace ≠ [] := by
        rw [hw]; simp
      rw [← hw, getLast_dropWhile_eq isJsSpace _ hne, List.getLast?_reverse]
      cases hu : s.dropWhile isJsSpace with
      | nil => rfl
      | cons c0 t0 => simp [hu, head_dropWhile_false isJsSpace s c0 t0 hu]
  · cases hw : (s.dropWhile isJsSpace).reverse.dropWhile isJsSpace with
    | nil => simp [hw]
    | cons c t =>
      simp [hw, head_dropWhile_false isJsSpace _ c t hw]

theorem coerceCell_str_eq (v s : Str) (h : coerceCell v = .str s) : s = jsTrim v := by
  unfold coerceCell at h
  split at h
  · split at h
    · cases h; rfl
    · cases h
  · cases h; rfl

theorem tableOfLines_row_length (lines : List Str) :
    ∀ r ∈ (tableOfLines lines).values, r.length = (tableOfLines lines).headers.length := by
  intro r hr
  simp only [tableOfLines] at hr ⊢
  obtain ⟨r0, hr0, rfl⟩ := List.mem_map.mp hr
  obtain ⟨_, hlen⟩ := List.mem_filter.mp hr0
  simp only [beq_iff_eq] at hlen
  simpa using hlen

theorem tableOfLines_cell_trimmed (lines : List Str) :
    ∀ r ∈ (tableOfLines lines).values, ∀ s : Str, Cell.str s ∈ r →
      noEdgeSpace s = true := by
  intro r hr s hs
  simp only [tableOfLines] at hr
  obtain ⟨r0, _, rfl⟩ := List.mem_map.mp hr
  obtain ⟨v, _, hv⟩ := List.mem_map.mp hs
  rw [coerceCell_str_eq v s hv]
  exact noEdgeSpace_jsTrim v

theorem splitCellsAux_no_shape (s : Str) :
    ∀ acc : Str, hasTabularShape s = false →
      splitCellsAux false acc s = [acc.reverse ++ s] := by
  induction s with
  | nil => intro acc h; simp [splitCellsAux]
  | cons c rest ih =>
    intro acc h
    cases rest with
    | nil =>
      have hc : ¬c = '\t' := by simpa [hasTabularShape] using h
      simp [splitCellsAux, hc]
    | cons d rest2 =>
      simp only [hasTabularShape, Bool.or_eq_false_iff] at h
      simp only [splitCellsAux, Bool.false_and, Bool.false_eq_true, if_false,
        if_neg (show ¬c = '\t' by simpa using h.1.1),
        if_neg (show ¬(isJsSpace c && isJsSpace d) = true by simp [h.1.2])]
      rw [ih (c :: acc) h.2]
      simp

theorem splitCells_no_shape (s : Str) (h : hasTabularShape s = false) :
    splitCells s = [s] := by
  unfold splitCells
  rw [splitCellsAux_no_shape s [] h]
  rfl

theorem coerceCell_num_iff (v : Str) :
    (∃ n, coerceCell v = .num n) ↔
      ((jsStringToNumber (jsTrim v)).isSome = true ∧ (jsTrim v).isEmpty = false) := by
  unfold coerceCell
  split
  next m heq =>
    split
    next he => simp [he]
    next he =>
      rw [Bool.not_eq_true] at he
      simp [heq, he]
  next heq => simp [heq]

/-! ## The claims -/

/-- C1: for every `Table` returned by `extractTable`, every row of `values`
has exactly as many cells as `headers`; a tokenized candidate data line whose
token count differs from the header count is dropped during construction and
never appears in `values`. -/
theorem c1_row_length_invariant (text : Str) (t : Table)
    (h : extractTable text = .ok t) :
    ∀ r ∈ t.values, r.length = t.headers.length := by
  unfold extractTable at h
  split at h
  · cases h
  · rw [Except.ok.injEq] at h
    subst h
    exact tableOfLines_row_length (candidateLines text)

/-- Witness for C1 at the concrete input `"A\t B\nx\t 2"`. -/
theorem c1_row_length_invariant_witness :
    ([Cell.str ['x'], Cell.num (.finite 2)] : List Cell).length =
      (Table.mk [['A'], [' ', 'B']] [[Cell.str ['x'], Cell.num (.finite 2)]]).headers.length :=
  c1_row_length_invariant (("A\t B\nx\t 2").data)
    (Table.mk [['A'], [' ', 'B']] [[Cell.str ['x'], Cell.num (.finite 2)]])
    (by rfl) [Cell.str ['x'], Cell.num (.finite 2)] (by decide)

/-- C2: when fewer than two lines pass the candidate filter (non-blank after
trimming and containing a tab or a run of two or more whitespace characters),
`extractTable` fails with the message "No table-like data found". -/
theorem c2_too_few_candidates_error (text : Str)
    (h : (candidateLines text).length < 2) :
    extractTable text = .error noTabularDataMsg := by
  unfold extractTable
  rw [if_pos h]

/-- Witness for C2 at the concrete input `"hello\nworld"`. -/
theorem c2_too_few_candidates_error_witness :
    (candidateLines (("hello\nworld").data)).length < 2 ∧
      extractTable (("hello\nworld").data) = .error noTabularDataMsg :=
  ⟨by decide, c2_too_few_candidates_error (("hello\nworld").data) (by decide)⟩

set_option maxRecDepth 40000 in
/-- C3 (code bug): `generateHTML` interpolates cell text verbatim — for a
table holding the cell `"<script>alert(1)</script>"`, the rendered document
contains `"<script>"` as live markup and contains no escaped form
`"&lt;script&gt;"`, contradicting the required escaping. -/
theorem c3_script_rendered_unescaped :
    containsStr (("<script>").data)
        (generateHTML [("H").data] [[.str (("<script>alert(1)</script>").data)]]) = true ∧
      containsStr (("&lt;script&gt;").data)
        (generateHTML [("H").data] [[.str (("<script>alert(1)</script>").data)]]) = false :=
  ⟨by decide, by decide⟩

/-- C4 counterexample: on the spec's round-trip input, `extractTable` does
NOT return only the row `["Alice", 30, "NYC"]` — the line `"Bob\t  badrow"`
is not dropped. -/
theorem c4_badrow_not_dropped :
    (extractTable (("Name\tAge\tCity\nAlice\t30\tNYC\nBob\t  badrow").data)).toOption ≠
      some ⟨[("Name").data, ("Age").data, ("City").data],
        [[.str (("Alice").data), .num (.finite 30), .str (("NYC").data)]]⟩ := by
  decide

/-- C4 amended: on the same input `extractTable` returns the headers
`["Name","Age","City"]` and TWO rows — `"Bob\t  badrow"` tokenizes into
three cells (`"Bob"`, an empty token between the tab and the two-space run,
and `"badrow"`), so it matches the header count and is kept; no error is
raised. -/
theorem c4_roundtrip_actual :
    extractTable (("Name\tAge\tCity\nAlice\t30\tNYC\nBob\t  badrow").data) =
      .ok ⟨[("Name").data, ("Age").data, ("City").data],
        [[.str (("Alice").data), .num (.finite 30), .str (("NYC").data)],
         [.str (("Bob").data), .str [], .str (("badrow").data)]]⟩ := by
  rfl

/-- C5 counterexample: the token `"Infinity"` is coerced to a number by the
code although it is not an integer-or-decimal numeric literal. -/
theorem c5_infinity_coerced :
    coerceCell (("Infinity").data) = .num .posInf ∧
      specNumericLiteral (jsTrim (("Infinity").data)) = false :=
  ⟨by decide, by decide⟩

/-- C5 amended: a surviving cell token is coerced to a number exactly when
its trimmed form is non-empty and is accepted by JavaScript `Number()`
string conversion (which, beyond optionally signed integer and decimal
literals, also accepts exponent parts, unsigned hex/octal/binary literals
and signed `Infinity`); the concrete examples hold: `"42"` becomes the
number 42, `"4.5"` becomes 4.5 (the rational `mkRat 9 2`), `"abc"` stays
the string `"abc"`, and the empty token stays the empty string. -/
theorem c5_numeric_coercion_characterization :
    coerceCell (("42").data) = .num (.finite 42) ∧
    coerceCell (("4.5").data) = .num (.finite (mkRat 9 2)) ∧
    coerceCell (("abc").data) = .str (("abc").data) ∧
    coerceCell ([] : Str) = .str [] ∧
    ∀ v : Str, (∃ n, coerceCell v = .num n) ↔
      ((jsStringToNumber (jsTrim v)).isSome = true ∧ (jsTrim v).isEmpty = false) :=
  ⟨by decide, by decide, by decide, by decide, coerceCell_num_iff⟩

/-- C6 counterexample: two candidate lines where the data line's token count
differs from the header count yield a header-only `Table`, not an error. -/
theorem c6_header_only_table_succeeds :
    extractTable (("A\tB\nx  y  z").data) = .ok ⟨[['A'], ['B']], []⟩ := by
  rfl

/-- C6 amended: `extractTable` fails only at the fewer-than-two-candidates
check; whenever at least two candidate lines remain it succeeds, even when
zero data rows survive the column-count filter (header-only table). -/
theorem c6_enough_candidates_no_error (text : Str)
    (h : 2 ≤ (candidateLines text).length) :
    ∃ t : Table, extractTable text = .ok t := by
  unfold extractTable
  rw [if_neg (by omega)]
  exact ⟨_, rfl⟩

/-- Witness for the amended C6 at the concrete input `"A\tB\nJohn  x  y"`
(whose only data line is dropped). -/
theorem c6_enough_candidates_no_error_witness :
    2 ≤ (candidateLines (("A\tB\nJohn  x  y").data)).length ∧
      ∃ t : Table, extractTable (("A\tB\nJohn  x  y").data) = .ok t :=
  ⟨by decide, c6_enough_candidates_no_error (("A\tB\nJohn  x  y").data) (by decide)⟩

/-- C7 counterexample: the header line `"A\t B"` tokenizes to `["A", " B"]`
and the second header label keeps its leading space — header tokens are not
individually trimmed. -/
theorem c7_header_token_untrimmed :
    extractTable (("A\t B\nx\t 2").data) =
        .ok ⟨[['A'], [' ', 'B']], [[.str ['x'], .num (.finite 2)]]⟩ ∧
      noEdgeSpace [' ', 'B'] = false :=
  ⟨by rfl, by decide⟩

/-- C7 amended: tokenization splits on a tab or a run of two-or-more
whitespace characters; each DATA cell is trimmed, so every string cell in
`values` carries no leading or trailing whitespace — but header tokens are
not individually trimmed and can retain a space adjacent to a tab
separator. -/
theorem c7_string_cells_trimmed (text : Str) (t : Table)
    (h : extractTable text = .ok t) :
    ∀ r ∈ t.values, ∀ s : Str, Cell.str s ∈ r → noEdgeSpace s = true := by
  unfold extractTable at h
  split at h
  · cases h
  · rw [Except.ok.injEq] at h
    subst h
    exact tableOfLines_cell_trimmed (candidateLines text)

/-- Witness for the amended C7 at the concrete input `"A\t B\nx\t 2"`. -/
theorem c7_string_cells_trimmed_witness : noEdgeSpace ['x'] = true :=
  c7_string_cells_trimmed (("A\t B\nx\t 2").data)
    ⟨[['A'], [' ', 'B']], [[Cell.str ['x'], Cell.num (.finite 2)]]⟩ (by rfl)
    [Cell.str ['x'], Cell.num (.finite 2)] (by decide) ['x'] (by decide)

/-- C8: when extraction fails, the pipeline returns the error and the
storage backend is left exactly as it was — the writer runs only after a
fully-built table and fully-rendered report exist, so no partial report is
persisted. -/
theorem c8_no_write_on_extract_error (text baseName : Str) (st : Store)
    (e : Str) (h : extractTable text = .error e) :
    pdfTableToHTMLDashboard text baseName st = (.error e, st) := by
  unfold pdfTableToHTMLDashboard
  rw [h]

/-- Witness for C8: a store holding one prior report is unchanged when
extraction finds no table. -/
theorem c8_no_write_on_extract_error_witness :
    pdfTableToHTMLDashboard (("hello world no table").data) (("doc").data)
        ⟨[((("dashboards/old.html").data), ("x").data)]⟩ =
      (.error noTabularDataMsg, ⟨[((("dashboards/old.html").data), ("x").data)]⟩) :=
  c8_no_write_on_extract_error (("hello world no table").data) (("doc").data)
    ⟨[((("dashboards/old.html").data), ("x").data)]⟩ noTabularDataMsg (by rfl)

/-- C9: `extractTable` and `generateHTML` are deterministic — equal inputs
give equal tables and byte-identical rendered output; both are pure
functions of their arguments with no environment dependence. -/
theorem c9_extract_render_deterministic (text1 text2 : Str)
    (hdr1 hdr2 : List Str) (val1 val2 : List (List Cell))
    (ht : text1 = text2) (hh : hdr1 = hdr2) (hv : val1 = val2) :
    extractTable text1 = extractTable text2 ∧
      generateHTML hdr1 val1 = generateHTML hdr2 val2 := by
  subst ht; subst hh; subst hv
  exact ⟨rfl, rfl⟩

/-- Witness for C9 at concrete inputs. -/
theorem c9_extract_render_deterministic_witness :
    extractTable (("a\tb").data) = extractTable (("a\tb").data) ∧
      generateHTML [("H").data] [[Cell.str (("v").data)]] =
        generateHTML [("H").data] [[Cell.str (("v").data)]] :=
  c9_extract_render_deterministic (("a\tb").data) (("a\tb").data)
    [("H").data] [("H").data] [[Cell.str (("v").data)]] [[Cell.str (("v").data)]]
    rfl rfl rfl

/-- C10: the tabular-shape test runs on the untrimmed line, so a line whose
only multi-whitespace run is its indentation still passes the candidate
filter; after trimming it tokenizes to a single cell, and when such a line
is the first candidate the table's column count is 1. -/
theorem c10_shape_test_untrimmed_line (l text : Str) (t : Table)
    (hne : (jsTrim l).isEmpty = false)
    (hshape : hasTabularShape l = true)
    (hinner : hasTabularShape (jsTrim l) = false) :
    candPred l = true ∧ tokenizeLine l = [jsTrim l] ∧
      (extractTable text = .ok t →
        hasTabularShape (jsTrim ((candidateLines text).headD [])) = false →
        t.headers.length = 1) := by
  refine ⟨?_, ?_, ?_⟩
  · simp [candPred, hne, hshape]
  · unfold tokenizeLine
    exact splitCells_no_shape _ hinner
  · intro hok hfirst
    unfold extractTable at hok
    split at hok
    next => cases hok
    next hlen =>
      rw [Except.ok.injEq] at hok
      subst hok
      cases hc : candidateLines text with
      | nil => rw [hc] at hlen; simp at hlen
      | cons a rest =>
        rw [hc] at hfirst
        simp only [List.headD_cons] at hfirst
        simp only [tableOfLines, hc, List.map_cons, List.headD_cons]
        unfold tokenizeLine
        rw [splitCells_no_shape _ hfirst]
        rfl

/-- Witness for C10 at the concrete line `"  x"` inside the input
`"  x\n  y"`. -/
theorem c10_shape_test_untrimmed_line_witness :
    candPred (("  x").data) = true ∧
      tokenizeLine (("  x").data) = [jsTrim (("  x").data)] ∧
      (extractTable (("  x\n  y").data) = .ok ⟨[['x']], [[Cell.str ['y']]]⟩ →
        hasTabularShape (jsTrim ((candidateLines (("  x\n  y").data)).headD [])) = false →
        (Table.mk [['x']] [[Cell.str ['y']]]).headers.length = 1) :=
  c10_shape_test_untrimmed_line (("  x").data) (("  x\n  y").data)
    ⟨[['x']], [[Cell.str ['y']]]⟩ (by decide) (by decide) (by decide)

end PdfDashboard
